import Mathlib

/-!
Verification of the database-handle layer of libmdbx-rs (src/database.rs).

The handle layer is a thin wrapper over the native MDBX engine. The wrapper
code of database.rs is translated directly; the engine itself, the execution
helper of transaction.rs, the status translation of error.rs and the flag
types of flags.rs are external to the given sources and are modelled from the
specification, each marked in its doc comment.
-/

namespace LibmdbxRs

/-- Byte strings crossing the native boundary, modelled as lists of byte values. -/
abbrev Bytes := List Nat

/-- Translation of the C struct MDBX_val: a length and a base pointer; the
pointer is an optional address and none models the null pointer. -/
structure MDBX_val where
  iov_len : Nat
  iov_base : Option Nat
deriving DecidableEq

/-- The reservation bit of the native put interface (MDBX_RESERVE). -/
def MDBX_RESERVE : Nat := 0x10000

/-- The native status code of success (MDBX_SUCCESS). -/
def MDBX_SUCCESS : Int := 0

/-- The native status code reported when no matching entry exists (MDBX_NOTFOUND). -/
def MDBX_NOTFOUND : Int := -30798

/-- The native status code for an unknown database identifier (MDBX_BAD_DBI). -/
def MDBX_BAD_DBI : Int := -30780

/-- Result of one Rust-level call: an ok value, a typed error carrying the
native status code, or a panic (an unwind), which is distinct from every
returned result. -/
inductive Outcome (α : Type) where
  | ok (a : α)
  | err (e : Int)
  | panicked
deriving DecidableEq

/-- Statistics snapshot returned by the engine; field names follow MDBX_stat. -/
structure Stat where
  ms_psize : Nat
  ms_depth : Nat
  ms_branch_pages : Nat
  ms_leaf_pages : Nat
  ms_overflow_pages : Nat
  ms_entries : Nat
deriving DecidableEq

/-- One native call issued to the engine, recording the raw transaction
pointer together with every argument the wrapper passed. -/
inductive EngineCall where
  | dbi_open (txn : Nat) (name : Option Bytes) (flags : Nat)
  | put (txn : Nat) (dbi : Nat) (key : Bytes) (data : MDBX_val) (flags : Nat)
  | del (txn : Nat) (dbi : Nat) (key : Bytes) (data : Option Bytes)
  | drop (txn : Nat) (dbi : Nat) (delFlag : Bool)
  | dbi_flags_ex (txn : Nat) (dbi : Nat)
  | dbi_stat (txn : Nat) (dbi : Nat)
  | cursor_open (txn : Nat) (dbi : Nat)
deriving DecidableEq

/-- Modelled from the spec: the storage engine is an external collaborator
reached through the native call interface of section 6; every operation
receives the raw transaction pointer and its arguments and returns a native
status code together with its outputs and the successor engine state. -/
structure Engine (σ : Type) where
  dbi_open : Nat → Option Bytes → Nat → σ → Int × Nat × σ
  put : Nat → Nat → Bytes → MDBX_val → Nat → σ → Int × MDBX_val × σ
  del : Nat → Nat → Bytes → Option Bytes → σ → Int × σ
  drop : Nat → Nat → Bool → σ → Int × σ
  dbi_flags_ex : Nat → Nat → σ → Int × Nat × σ
  dbi_stat : Nat → Nat → σ → Int × Stat × σ
  cursor_open : Nat → Nat → σ → Int × σ

/-- Modelled from the spec: the execution helper of transaction.rs acquires
exclusive access to the guarded native transaction pointer, invokes the native
operation with the current raw value, releases access and returns the result
unchanged; the blocking lock is a concurrency artefact with no effect on the
returned value, so the helper reduces to application. -/
def txn_execute {α : Type} (txn : Nat) (f : Nat → α) : α := f txn

/-- Modelled from the spec: the owning transaction of transaction.rs, reduced
to the identity of its guarded native pointer, which is what txn_mutex of the
source exposes to the handle layer. -/
structure Transaction where
  mutex : Nat
deriving DecidableEq

/-- Accessor matching Transaction::txn_mutex of the source. -/
def Transaction.txn_mutex (t : Transaction) : Nat := t.mutex

/-- Modelled from the spec: mdbx_result of error.rs translates a native status
code into a typed result immediately, success to ok and any other status to an
error carrying that very status. -/
def mdbx_result (status : Int) : Outcome Unit :=
  if status = MDBX_SUCCESS then Outcome.ok () else Outcome.err status

/-- Lifts the status translation of mdbx_result to an operation returning a
value, as every wrapper of database.rs does with the question-mark operator. -/
def liftStatus {α : Type} (status : Int) (a : α) : Outcome α :=
  match mdbx_result status with
  | Outcome.ok _ => Outcome.ok a
  | Outcome.err e => Outcome.err e
  | Outcome.panicked => Outcome.panicked

/-- The capability marker of transaction.rs: the closed set of transaction
kinds, used purely as a type-level index. -/
inductive TransactionKind where
  | RO
  | RW
deriving DecidableEq

/-- Translation of struct Database of database.rs: the numeric dbi and the
reference to the guarded transaction pointer; the capability marker K is a
phantom parameter (PhantomData in the source), so no field depends on it. -/
structure Database (K : TransactionKind) where
  dbi : Nat
  txn : Nat
deriving DecidableEq

/-- Translation of CString::new of the Rust standard library: fails exactly
when the byte string contains an interior NUL byte; Database::new applies
unwrap to this result, which panics on the failure case. -/
def CString.new (b : Bytes) : Option Bytes :=
  if b.contains 0 then none else some b

/-- The common result shape of one wrapper operation: the typed outcome, the
successor engine state, and the trace of native calls issued. -/
abbrev OpResult (σ α : Type) := Outcome α × σ × List EngineCall

/-- Translation of Database::new of database.rs: converts the optional name
with CString::new followed by unwrap, so a name holding an interior NUL panics
before any engine interaction; otherwise issues mdbx_dbi_open once through
txn_execute, translates the status with mdbx_result, and on success returns a
handle carrying the engine-assigned dbi and the guarded pointer of the
transaction. -/
def Database.new {σ : Type} (K : TransactionKind) (e : Engine σ) (txn : Transaction)
    (name : Option Bytes) (flags : Nat) (s : σ) : OpResult σ (Database K) :=
  match name with
  | some n =>
    match CString.new n with
    | none => (Outcome.panicked, s, [])
    | some cn =>
      let r := txn_execute txn.txn_mutex (fun t => e.dbi_open t (some cn) flags s)
      (liftStatus r.1 (Database.mk r.2.1 txn.txn_mutex), r.2.2,
        [EngineCall.dbi_open txn.txn_mutex (some cn) flags])
  | none =>
    let r := txn_execute txn.txn_mutex (fun t => e.dbi_open t none flags s)
    (liftStatus r.1 (Database.mk r.2.1 txn.txn_mutex), r.2.2,
      [EngineCall.dbi_open txn.txn_mutex none flags])

/-- Translation of Database::freelist_db of database.rs: constructs the handle
with dbi 0 and the guarded pointer of the transaction; the function returns
Self directly, takes no engine and has no failure path. -/
def Database.freelist_db (K : TransactionKind) (txn : Transaction) : Database K :=
  Database.mk 0 txn.txn_mutex

/-- Translation of struct Cursor at its construction boundary: a cursor shares
the dbi, the guarded transaction pointer and the capability of the handle it
borrows. -/
structure Cursor (K : TransactionKind) where
  dbi : Nat
  txn : Nat
deriving DecidableEq

/-- Modelled from the spec: Cursor::new of cursor.rs, which is outside the
given sources, issues the open-cursor native call for the handle through the
execution helper and translates the status; it fails only if that call fails. -/
def Cursor.new {σ : Type} {K : TransactionKind} (e : Engine σ) (d : Database K)
    (s : σ) : OpResult σ (Cursor K) :=
  let r := txn_execute d.txn (fun t => e.cursor_open t d.dbi s)
  (liftStatus r.1 (Cursor.mk d.dbi d.txn), r.2, [EngineCall.cursor_open d.txn d.dbi])

/-- Translation of Database::cursor of database.rs: delegates to Cursor::new
on this handle. -/
def Database.cursor {σ : Type} {K : TransactionKind} (e : Engine σ) (d : Database K)
    (s : σ) : OpResult σ (Cursor K) :=
  Cursor.new e d s

/-- Modelled from the spec: the recognized DatabaseFlags bits of flags.rs
(reverse-key, dup-sort, integer-key, dup-fixed, integer-dup, reverse-dup,
create, accede) with the bit values of the native interface. -/
def DatabaseFlags.KNOWN : Nat :=
  0x02 ||| 0x04 ||| 0x08 ||| 0x10 ||| 0x20 ||| 0x40 ||| 0x40000 ||| 0x40000000

/-- Modelled from the spec: the truncating conversion of the bitflags crate
used by flags.rs keeps exactly the recognized bits, silently drops every other
bit, and never fails. -/
def DatabaseFlags.from_bits_truncate (f : Nat) : Nat :=
  f &&& DatabaseFlags.KNOWN

/-- Translation of Database::db_flags of database.rs: queries
mdbx_dbi_flags_ex once through the execution helper, translates the status,
and applies the truncating conversion to the reported flag word. -/
def Database.db_flags {σ : Type} {K : TransactionKind} (e : Engine σ)
    (d : Database K) (s : σ) : OpResult σ Nat :=
  let r := txn_execute d.txn (fun t => e.dbi_flags_ex t d.dbi s)
  (liftStatus r.1 (DatabaseFlags.from_bits_truncate r.2.1), r.2.2,
    [EngineCall.dbi_flags_ex d.txn d.dbi])

/-- Translation of Database::stat of database.rs: queries mdbx_dbi_stat once
through the execution helper and translates the status, returning the
statistics record the engine filled. -/
def Database.stat {σ : Type} {K : TransactionKind} (e : Engine σ)
    (d : Database K) (s : σ) : OpResult σ Stat :=
  let r := txn_execute d.txn (fun t => e.dbi_stat t d.dbi s)
  (liftStatus r.1 r.2.1, r.2.2, [EngineCall.dbi_stat d.txn d.dbi])

/-- The byte view returned by reserve: the base address and length the engine
reported back through the value record, together with the lifetime tether to
the guarded pointer of the owning transaction, mirroring the txn lifetime of
the returned mutable slice. -/
structure ReservedView where
  base : Option Nat
  len : Nat
  txnLife : Nat
deriving DecidableEq

/-- Translation of Database::reserve of database.rs, available only at kind
RW: builds a value record of the requested length with a null base pointer,
issues mdbx_put once with the reservation bit OR-ed into the caller flags, and
on success returns the view built from the value record the engine wrote back. -/
def Database.reserve {σ : Type} (e : Engine σ) (d : Database TransactionKind.RW)
    (key : Bytes) (len : Nat) (flags : Nat) (s : σ) : OpResult σ ReservedView :=
  let data_val : MDBX_val := MDBX_val.mk len none
  let r := txn_execute d.txn (fun t => e.put t d.dbi key data_val (flags ||| MDBX_RESERVE) s)
  (liftStatus r.1 (ReservedView.mk r.2.1.iov_base r.2.1.iov_len d.txn), r.2.2,
    [EngineCall.put d.txn d.dbi key data_val (flags ||| MDBX_RESERVE)])

/-- Translation of Database::del of database.rs, available only at kind RW:
issues mdbx_del once, passing the value record built from the data bytes when
they are supplied and the null pointer when they are absent, then translates
the status. -/
def Database.del {σ : Type} (e : Engine σ) (d : Database TransactionKind.RW)
    (key : Bytes) (data : Option Bytes) (s : σ) : OpResult σ Unit :=
  let r := txn_execute d.txn (fun t =>
    match data with
    | some dv => e.del t d.dbi key (some dv) s
    | none => e.del t d.dbi key none s)
  (liftStatus r.1 (), r.2, [EngineCall.del d.txn d.dbi key data])

/-- Translation of Database::clear_db of database.rs, available only at kind
RW: issues mdbx_drop once with the delete flag false and translates the
status. -/
def Database.clear_db {σ : Type} (e : Engine σ) (d : Database TransactionKind.RW)
    (s : σ) : OpResult σ Unit :=
  let r := txn_execute d.txn (fun t => e.drop t d.dbi false s)
  (liftStatus r.1 (), r.2, [EngineCall.drop d.txn d.dbi false])

/-- Translation of Database::drop_db of database.rs, available only at kind RW
and taking the handle by value: issues mdbx_drop once with the delete flag
true and translates the status; no input of the call mentions sibling handles. -/
def Database.drop_db {σ : Type} (e : Engine σ) (d : Database TransactionKind.RW)
    (s : σ) : OpResult σ Unit :=
  let r := txn_execute d.txn (fun t => e.drop t d.dbi true s)
  (liftStatus r.1 (), r.2, [EngineCall.drop d.txn d.dbi true])

/-- The handle operations of database.rs as data: the four read-capable
operations of the generic impl block and the four mutating operations of the
impl block at kind RW. -/
inductive Op where
  | dbiGet
  | cursor
  | dbFlags
  | stat
  | reserve
  | del
  | clearDb
  | dropDb
deriving DecidableEq

/-- The operations of the generic impl block of database.rs, provided for
every transaction kind. -/
def readOps : List Op := [Op.dbiGet, Op.cursor, Op.dbFlags, Op.stat]

/-- The operations of the impl block of database.rs at kind RW: exactly the
four mutating operations. -/
def mutatingOps : List Op := [Op.reserve, Op.del, Op.clearDb, Op.dropDb]

/-- Structural rendering of the two impl blocks of database.rs: availability
of an operation is a function of the type index alone, with no handle-state
input; the read operations are present for every kind and the mutating
operations only at kind RW. -/
def availableOps (k : TransactionKind) : List Op :=
  readOps ++ (if k = TransactionKind.RW then mutatingOps else [])

/-- Structural rendering of the receiver modes of database.rs: drop_db takes
self by value and is the only operation consuming the handle; every other
operation borrows the handle immutably. -/
def consumesHandle : Op → Bool
  | Op.dropDb => true
  | _ => false

/-- Lifecycle states of a handle: constructed, or invalid after consumption. -/
inductive HandleState where
  | Constructed
  | Invalid
deriving DecidableEq

/-- The handle lifecycle induced by the receiver modes: a consumed handle
admits no further operation, and a borrowed handle is left in its state. -/
def handleStep : HandleState → Op → Option HandleState
  | HandleState.Constructed, op =>
    if consumesHandle op then some HandleState.Invalid else some HandleState.Constructed
  | HandleState.Invalid, _ => none

/-- Modelled from the spec: the reference state of the external engine, holding
the registered databases with their stored flag words, the stored entries as
triples of dbi, key and value, and an allocation counter for the addresses of
reserved page space. -/
structure EngineState where
  dbs : List (Nat × Nat)
  entries : List (Nat × Bytes × Bytes)
  nextPtr : Nat
deriving DecidableEq

/-- Whether one stored entry is selected by a delete request: the dbi and key
must match, and when data bytes are supplied the value must equal them exactly. -/
def entryMatches (dbi : Nat) (key : Bytes) (data : Option Bytes)
    (ent : Nat × Bytes × Bytes) : Bool :=
  decide (ent.1 = dbi) && decide (ent.2.1 = key) &&
    (match data with
     | some dv => decide (ent.2.2 = dv)
     | none => true)

/-- Modelled from the spec: a reference implementation of the native interface
of section 6 over EngineState. Open registers a fresh identifier with the
requested flag word; put with the reservation bit records a value of the
requested length at a fresh address, reporting the address back with the
length unchanged; delete removes exactly the selected entries and reports
not-found when none is selected; drop with the delete flag false removes the
entries of one database and keeps its registration, and with the flag true
also removes the registration; the queries report the stored flag word and
the entry count. -/
def ModelEngine : Engine EngineState :=
  Engine.mk
    (fun _ _ flags s =>
      let dbi := (s.dbs.map Prod.fst).foldl max 0 + 1
      (MDBX_SUCCESS, dbi, EngineState.mk ((dbi, flags) :: s.dbs) s.entries s.nextPtr))
    (fun _ dbi key data _ s =>
      (MDBX_SUCCESS, MDBX_val.mk data.iov_len (some s.nextPtr),
        EngineState.mk s.dbs ((dbi, key, List.replicate data.iov_len 0) :: s.entries)
          (s.nextPtr + 1)))
    (fun _ dbi key data s =>
      if (s.entries.filter (fun ent => entryMatches dbi key data ent)).isEmpty then
        (MDBX_NOTFOUND, s)
      else
        (MDBX_SUCCESS,
          EngineState.mk s.dbs
            (s.entries.filter (fun ent => !entryMatches dbi key data ent)) s.nextPtr))
    (fun _ dbi delFlag s =>
      let kept := s.entries.filter (fun ent => !decide (ent.1 = dbi))
      if delFlag then
        (MDBX_SUCCESS,
          EngineState.mk (s.dbs.filter (fun p => !decide (p.1 = dbi))) kept s.nextPtr)
      else
        (MDBX_SUCCESS, EngineState.mk s.dbs kept s.nextPtr))
    (fun _ dbi s =>
      match s.dbs.find? (fun p => decide (p.1 = dbi)) with
      | some p => (MDBX_SUCCESS, p.2, s)
      | none => (MDBX_BAD_DBI, 0, s))
    (fun _ dbi s =>
      (MDBX_SUCCESS,
        Stat.mk 4096 1 0 1 0 ((s.entries.filter (fun ent => decide (ent.1 = dbi))).length),
        s))
    (fun _ _ s => (MDBX_SUCCESS, s))

/-- An outcome is the immediate translation of a native status when it is ok
exactly on success and otherwise the error carrying that very status, with no
retry and no silent recovery. -/
def immediateTranslation {α : Type} (status : Int) (o : Outcome α) : Prop :=
  (status = MDBX_SUCCESS → ∃ a, o = Outcome.ok a) ∧
    (status ≠ MDBX_SUCCESS → o = Outcome.err status)

theorem immediateTranslation_liftStatus {α : Type} (status : Int) (a : α) :
    immediateTranslation status (liftStatus status a) := by
  constructor
  · intro h
    exact ⟨a, by simp [liftStatus, mdbx_result, h]⟩
  · intro h
    simp [liftStatus, mdbx_result, h]

theorem filter_not_of_filter_isEmpty {α : Type} (p : α → Bool) (l : List α)
    (h : (l.filter p).isEmpty = true) : l.filter (fun a => !p a) = l := by
  have h1 : ∀ a ∈ l, ¬ p a = true := by
    have h0 : l.filter p = [] := by
      cases hf : l.filter p with
      | nil => rfl
      | cons x xs => rw [hf] at h; simp [List.isEmpty] at h
    exact fun a ha => by
      intro hpa
      have : a ∈ l.filter p := List.mem_filter.mpr ⟨ha, hpa⟩
      rw [h0] at this
      exact (List.not_mem_nil a) this
  exact List.filter_eq_self.mpr (fun a ha => by simp [h1 a ha])

/-- C1 counterexample: for the concrete name consisting of one NUL byte, the
open operation Database.new does not return an engine error as its result: it
panics on the unwrap inside the name conversion, refuting the claim that an
embedded NUL in the name is reported as an error result and never a panic. -/
theorem C1_counterexample :
    (Database.new TransactionKind.RW ModelEngine (Transaction.mk 7) (some [0]) 0
        (EngineState.mk [] [] 0)).1 = Outcome.panicked := by
  rfl

/-- C1, amended: for every name containing an embedded NUL byte, Database.new
panics on the unwrap of the C string conversion before issuing any engine
call, so such names produce a panic rather than a typed engine error; the
engine state is untouched and the call trace is empty. -/
theorem C1_new_with_interior_nul_panics {σ : Type} (K : TransactionKind) (e : Engine σ)
    (txn : Transaction) (n : Bytes) (flags : Nat) (s : σ)
    (h : n.contains 0 = true) :
    Database.new K e txn (some n) flags s = (Outcome.panicked, s, []) := by
  have h0 : (0 : Nat) ∈ n := by simpa using h
  simp [Database.new, CString.new, h0]

/-- Witness for the amended C1 at the concrete name 0, 65. -/
theorem C1_witness :
    ([0, 65] : Bytes).contains 0 = true ∧
      Database.new TransactionKind.RO ModelEngine (Transaction.mk 1) (some [0, 65]) 3
          (EngineState.mk [] [] 0)
        = (Outcome.panicked, EngineState.mk [] [] 0, []) :=
  ⟨by decide,
    C1_new_with_interior_nul_panics TransactionKind.RO ModelEngine (Transaction.mk 1)
      [0, 65] 3 (EngineState.mk [] [] 0) (by decide)⟩

/-- C2: each of the four mutating operations reserve, del, clear_db and
drop_db is available on a handle kind exactly when that kind is RW, while the
read operations are available at every kind; availability is a function of the
type index alone, and the capability marker stores no runtime data, since the
fields of a handle at kind RO and at kind RW are the same dbi and guarded
pointer. -/
theorem C2_mutating_ops_require_rw :
    (∀ k, (Op.reserve ∈ availableOps k ↔ k = TransactionKind.RW) ∧
      (Op.del ∈ availableOps k ↔ k = TransactionKind.RW) ∧
      (Op.clearDb ∈ availableOps k ↔ k = TransactionKind.RW) ∧
      (Op.dropDb ∈ availableOps k ↔ k = TransactionKind.RW)) ∧
    (∀ k, Op.dbiGet ∈ availableOps k ∧ Op.cursor ∈ availableOps k ∧
      Op.dbFlags ∈ availableOps k ∧ Op.stat ∈ availableOps k) ∧
    (∀ i t, (Database.mk i t : Database TransactionKind.RO).dbi
        = (Database.mk i t : Database TransactionKind.RW).dbi ∧
      (Database.mk i t : Database TransactionKind.RO).txn
        = (Database.mk i t : Database TransactionKind.RW).txn) := by
  refine ⟨fun k => ?_, fun k => ?_, fun i t => ⟨rfl, rfl⟩⟩ <;> cases k <;> decide

/-- C3: for every key, requested length and caller flags word, reserve issues
exactly one engine put, carrying the reservation bit OR-ed into the caller
flags and a value record of the requested length with a null base pointer;
and on the reference engine the reserve succeeds with a view of exactly the
requested length at the fresh address, tethered to the guarded pointer of the
owning transaction. -/
theorem C3_reserve_single_put_and_exact_length {σ : Type} (e : Engine σ)
    (d : Database TransactionKind.RW) (key : Bytes) (n : Nat) (flags : Nat)
    (s : σ) (ms : EngineState) :
    (Database.reserve e d key n flags s).2.2
        = [EngineCall.put d.txn d.dbi key (MDBX_val.mk n none) (flags ||| MDBX_RESERVE)] ∧
    (Database.reserve ModelEngine d key n flags ms).1
        = Outcome.ok (ReservedView.mk (some ms.nextPtr) n d.txn) := by
  exact ⟨rfl, rfl⟩

/-- Helper: on the reference engine, a delete leaves exactly the entries not
selected by the request, whether or not a match existed. -/
theorem modelDel_entries (txnp dbi : Nat) (key : Bytes) (data : Option Bytes)
    (ms : EngineState) :
    ((ModelEngine.del txnp dbi key data ms).2).entries
      = ms.entries.filter (fun ent => !entryMatches dbi key data ent) := by
  by_cases h : (ms.entries.filter (fun ent => entryMatches dbi key data ent)).isEmpty = true
  · simp [ModelEngine, h]
    exact (filter_not_of_filter_isEmpty _ _ h).symm
  · simp [ModelEngine, h]

/-- C4: del with a supplied value passes exactly that value to the engine
delete, and on the reference engine only the entries of this database whose
key and value both match are removed; del with no value passes the null
pointer, and every entry of this database for the key is removed, regardless
of duplicates. -/
theorem C4_del_matching_semantics {σ : Type} (e : Engine σ)
    (d : Database TransactionKind.RW) (key dv : Bytes) (s : σ) (ms : EngineState) :
    (Database.del e d key (some dv) s).2.2 = [EngineCall.del d.txn d.dbi key (some dv)] ∧
    (Database.del e d key none s).2.2 = [EngineCall.del d.txn d.dbi key none] ∧
    ((Database.del ModelEngine d key (some dv) ms).2.1).entries
        = ms.entries.filter (fun ent => !entryMatches d.dbi key (some dv) ent) ∧
    ((Database.del ModelEngine d key none ms).2.1).entries
        = ms.entries.filter (fun ent => !entryMatches d.dbi key none ent) := by
  exact ⟨rfl, rfl, modelDel_entries d.txn d.dbi key (some dv) ms,
    modelDel_entries d.txn d.dbi key none ms⟩

/-- C5: drop_db issues the engine drop call with the delete flag true; on the
reference engine the registration of the database is removed together with its
entries and the call succeeds; the operation is the only one consuming the
handle, after which the lifecycle admits no further operation; and no input of
the call mentions sibling handles, whose absence is an unchecked precondition
rather than a reported error. -/
theorem C5_drop_db_removes_definition_and_consumes {σ : Type} (e : Engine σ)
    (d : Database TransactionKind.RW) (s : σ) (ms : EngineState) :
    (Database.drop_db e d s).2.2 = [EngineCall.drop d.txn d.dbi true] ∧
    ((Database.drop_db ModelEngine d ms).2.1).dbs
        = ms.dbs.filter (fun p => !decide (p.1 = d.dbi)) ∧
    ((Database.drop_db ModelEngine d ms).2.1).entries
        = ms.entries.filter (fun ent => !decide (ent.1 = d.dbi)) ∧
    (Database.drop_db ModelEngine d ms).1 = Outcome.ok () ∧
    consumesHandle Op.dropDb = true ∧
    handleStep HandleState.Constructed Op.dropDb = some HandleState.Invalid ∧
    (∀ op, handleStep HandleState.Invalid op = none) :=
  ⟨rfl, rfl, rfl, rfl, rfl, rfl, fun _ => rfl⟩

/-- C6: clear_db issues the engine drop call with the delete flag false; on
the reference engine every entry of this database is removed while the
registered databases and their flag words are untouched, so a flags query
after the clear returns exactly what it returned before; the call succeeds and
the handle lifecycle is unchanged. -/
theorem C6_clear_db_keeps_database_open {σ : Type} (e : Engine σ)
    (d : Database TransactionKind.RW) (s : σ) (ms : EngineState) :
    (Database.clear_db e d s).2.2 = [EngineCall.drop d.txn d.dbi false] ∧
    ((Database.clear_db ModelEngine d ms).2.1).entries
        = ms.entries.filter (fun ent => !decide (ent.1 = d.dbi)) ∧
    ((Database.clear_db ModelEngine d ms).2.1).dbs = ms.dbs ∧
    (Database.clear_db ModelEngine d ms).1 = Outcome.ok () ∧
    (Database.db_flags ModelEngine d ((Database.clear_db ModelEngine d ms).2.1)).1
        = (Database.db_flags ModelEngine d ms).1 ∧
    handleStep HandleState.Constructed Op.clearDb = some HandleState.Constructed := by
  refine ⟨rfl, rfl, rfl, rfl, ?_, rfl⟩
  have hstate : (Database.clear_db ModelEngine d ms).2.1
      = EngineState.mk ms.dbs
          (ms.entries.filter (fun ent => !decide (ent.1 = d.dbi))) ms.nextPtr := rfl
  rw [hstate]
  cases hf : ms.dbs.find? (fun p => decide (p.1 = d.dbi)) with
  | none => simp [Database.db_flags, txn_execute, ModelEngine, hf]
  | some p => simp [Database.db_flags, txn_execute, ModelEngine, hf]

/-- C8: freelist_db always succeeds, constructing the handle with identifier 0
bound to the guarded pointer of the given transaction; its type takes no
engine and returns the handle outright, so there is no engine call and no
failure path. -/
theorem C8_freelist_db_always_succeeds (K : TransactionKind) (txn : Transaction) :
    Database.freelist_db K txn = Database.mk 0 txn.txn_mutex ∧
    (Database.freelist_db K txn).dbi = 0 ∧
    (Database.freelist_db K txn).txn = txn.txn_mutex :=
  ⟨rfl, rfl, rfl⟩

/-- C9: the identifier accessor returns exactly the dbi fixed at construction
and the handle also keeps its guarded pointer; every read operation and every
self-loop write operation leaves the lifecycle state Constructed, and each
engine call such an operation issues carries exactly the construction-time
guarded pointer and dbi of the handle. -/
theorem C9_frame_preservation {σ : Type} (e : Engine σ) (K : TransactionKind)
    (i t n fl : Nat) (key dv : Bytes) (s : σ) :
    (Database.mk i t : Database K).dbi = i ∧
    (Database.mk i t : Database K).txn = t ∧
    handleStep HandleState.Constructed Op.dbiGet = some HandleState.Constructed ∧
    handleStep HandleState.Constructed Op.cursor = some HandleState.Constructed ∧
    handleStep HandleState.Constructed Op.dbFlags = some HandleState.Constructed ∧
    handleStep HandleState.Constructed Op.stat = some HandleState.Constructed ∧
    handleStep HandleState.Constructed Op.reserve = some HandleState.Constructed ∧
    handleStep HandleState.Constructed Op.del = some HandleState.Constructed ∧
    handleStep HandleState.Constructed Op.clearDb = some HandleState.Constructed ∧
    (Database.cursor e (Database.mk i t : Database K) s).2.2
        = [EngineCall.cursor_open t i] ∧
    (Database.db_flags e (Database.mk i t : Database K) s).2.2
        = [EngineCall.dbi_flags_ex t i] ∧
    (Database.stat e (Database.mk i t : Database K) s).2.2
        = [EngineCall.dbi_stat t i] ∧
    (Database.reserve e (Database.mk i t) key n fl s).2.2
        = [EngineCall.put t i key (MDBX_val.mk n none) (fl ||| MDBX_RESERVE)] ∧
    (Database.del e (Database.mk i t) key (some dv) s).2.2
        = [EngineCall.del t i key (some dv)] ∧
    (Database.clear_db e (Database.mk i t) s).2.2 = [EngineCall.drop t i false] :=
  ⟨rfl, rfl, rfl, rfl, rfl, rfl, rfl, rfl, rfl, rfl, rfl, rfl, rfl, rfl, rfl⟩

/-- C7 counterexample: for the concrete name consisting of one NUL byte the
fallible operation Database.new issues no engine call at all, its trace being
empty rather than of length one, refuting the claim that every fallible
operation issues exactly one engine call on every input. -/
theorem C7_counterexample :
    (Database.new TransactionKind.RW ModelEngine (Transaction.mk 3) (some [0]) 0
        (EngineState.mk [] [] 0)).2.2 = [] ∧
    ((Database.new TransactionKind.RW ModelEngine (Transaction.mk 3) (some [0]) 0
        (EngineState.mk [] [] 0)).2.2).length = 0 :=
  ⟨rfl, rfl⟩

/-- C7, amended: every fallible operation of the handle layer issues exactly
one engine call, routed through the execution helper, and its outcome is the
immediate translation of the native status of that single call, ok exactly on
success and otherwise the error carrying that very status, with no retry and
no silent recovery; the one exception is the open operation given a name with
an embedded NUL byte, which panics before any engine call. -/
theorem C7_single_call_immediate_translation {σ : Type} (e : Engine σ)
    (K : TransactionKind) (txn : Transaction) (d : Database K)
    (dw : Database TransactionKind.RW) (name : Bytes) (flags wf n : Nat)
    (key dv : Bytes) (s : σ)
    (hname : name.contains 0 = false) :
    ((Database.new K e txn (some name) flags s).2.2
        = [EngineCall.dbi_open txn.txn_mutex (some name) flags] ∧
      immediateTranslation (e.dbi_open txn.txn_mutex (some name) flags s).1
        (Database.new K e txn (some name) flags s).1) ∧
    ((Database.new K e txn none flags s).2.2
        = [EngineCall.dbi_open txn.txn_mutex none flags] ∧
      immediateTranslation (e.dbi_open txn.txn_mutex none flags s).1
        (Database.new K e txn none flags s).1) ∧
    ((Database.cursor e d s).2.2 = [EngineCall.cursor_open d.txn d.dbi] ∧
      immediateTranslation (e.cursor_open d.txn d.dbi s).1 (Database.cursor e d s).1) ∧
    ((Database.db_flags e d s).2.2 = [EngineCall.dbi_flags_ex d.txn d.dbi] ∧
      immediateTranslation (e.dbi_flags_ex d.txn d.dbi s).1 (Database.db_flags e d s).1) ∧
    ((Database.stat e d s).2.2 = [EngineCall.dbi_stat d.txn d.dbi] ∧
      immediateTranslation (e.dbi_stat d.txn d.dbi s).1 (Database.stat e d s).1) ∧
    ((Database.reserve e dw key n wf s).2.2
        = [EngineCall.put dw.txn dw.dbi key (MDBX_val.mk n none) (wf ||| MDBX_RESERVE)] ∧
      immediateTranslation
        (e.put dw.txn dw.dbi key (MDBX_val.mk n none) (wf ||| MDBX_RESERVE) s).1
        (Database.reserve e dw key n wf s).1) ∧
    ((Database.del e dw key (some dv) s).2.2 = [EngineCall.del dw.txn dw.dbi key (some dv)] ∧
      immediateTranslation (e.del dw.txn dw.dbi key (some dv) s).1
        (Database.del e dw key (some dv) s).1) ∧
    ((Database.del e dw key none s).2.2 = [EngineCall.del dw.txn dw.dbi key none] ∧
      immediateTranslation (e.del dw.txn dw.dbi key none s).1
        (Database.del e dw key none s).1) ∧
    ((Database.clear_db e dw s).2.2 = [EngineCall.drop dw.txn dw.dbi false] ∧
      immediateTranslation (e.drop dw.txn dw.dbi false s).1 (Database.clear_db e dw s).1) ∧
    ((Database.drop_db e dw s).2.2 = [EngineCall.drop dw.txn dw.dbi true] ∧
      immediateTranslation (e.drop dw.txn dw.dbi true s).1 (Database.drop_db e dw s).1) := by
  have h0 : ¬ (0 : Nat) ∈ name := by
    intro hm
    rw [show ((0 : Nat) ∈ name) = (name.contains 0 = true) from propext (by simp)] at hm
    rw [hname] at hm
    exact Bool.false_ne_true hm
  have hnew : Database.new K e txn (some name) flags s
      = (liftStatus (e.dbi_open txn.txn_mutex (some name) flags s).1
          (Database.mk (e.dbi_open txn.txn_mutex (some name) flags s).2.1 txn.txn_mutex),
        (e.dbi_open txn.txn_mutex (some name) flags s).2.2,
        [EngineCall.dbi_open txn.txn_mutex (some name) flags]) := by
    simp [Database.new, CString.new, h0, txn_execute]
  refine ⟨⟨by rw [hnew], by rw [hnew]; exact immediateTranslation_liftStatus _ _⟩,
    ⟨rfl, immediateTranslation_liftStatus _ _⟩,
    ⟨rfl, immediateTranslation_liftStatus _ _⟩,
    ⟨rfl, immediateTranslation_liftStatus _ _⟩,
    ⟨rfl, immediateTranslation_liftStatus _ _⟩,
    ⟨rfl, immediateTranslation_liftStatus _ _⟩,
    ⟨rfl, immediateTranslation_liftStatus _ _⟩,
    ⟨rfl, immediateTranslation_liftStatus _ _⟩,
    ⟨rfl, immediateTranslation_liftStatus _ _⟩,
    ⟨rfl, immediateTranslation_liftStatus _ _⟩⟩

/-- Witness for the amended C7 at a concrete NUL-free name, recovering the
single-call trace of the open operation. -/
theorem C7_witness :
    ([65] : Bytes).contains 0 = false ∧
      (Database.new TransactionKind.RO ModelEngine (Transaction.mk 2) (some [65]) 0
          (EngineState.mk [] [] 0)).2.2
        = [EngineCall.dbi_open 2 (some [65]) 0] :=
  ⟨by decide,
    (C7_single_call_immediate_translation ModelEngine TransactionKind.RO (Transaction.mk 2)
      (Database.mk 1 2) (Database.mk 1 2) [65] 0 0 4 [7] [8] (EngineState.mk [] [] 0)
      (by decide)).1.1⟩

/-- C10: when the engine reports success with some flag word, db_flags returns
ok of that word masked to the recognized bits: every unrecognized bit is
silently dropped, the returned word holds recognized bits only, and the
success never becomes an error whatever the unrecognized bits were. -/
theorem C10_db_flags_truncates {σ : Type} {K : TransactionKind} (e : Engine σ)
    (d : Database K) (s s' : σ) (f : Nat)
    (h : e.dbi_flags_ex d.txn d.dbi s = (MDBX_SUCCESS, f, s')) :
    (Database.db_flags e d s).1 = Outcome.ok (f &&& DatabaseFlags.KNOWN) ∧
    ((f &&& DatabaseFlags.KNOWN) ||| DatabaseFlags.KNOWN) = DatabaseFlags.KNOWN := by
  constructor
  · simp [Database.db_flags, txn_execute, h, liftStatus, mdbx_result,
      DatabaseFlags.from_bits_truncate]
  · apply Nat.eq_of_testBit_eq
    intro j
    rw [Nat.testBit_lor, Nat.testBit_land]
    cases hb : (DatabaseFlags.KNOWN).testBit j <;> simp [hb]

/-- Witness for C10 at the concrete word 260, holding the recognized dup-sort
bit 4 and the unrecognized bit 256, which is dropped. -/
theorem C10_witness :
    ModelEngine.dbi_flags_ex 9 5 (EngineState.mk [(5, 260)] [] 0)
        = (MDBX_SUCCESS, 260, EngineState.mk [(5, 260)] [] 0) ∧
      ((Database.db_flags ModelEngine (Database.mk 5 9 : Database TransactionKind.RO)
            (EngineState.mk [(5, 260)] [] 0)).1
          = Outcome.ok (260 &&& DatabaseFlags.KNOWN) ∧
        ((260 &&& DatabaseFlags.KNOWN) ||| DatabaseFlags.KNOWN) = DatabaseFlags.KNOWN) :=
  ⟨by decide,
    C10_db_flags_truncates ModelEngine (Database.mk 5 9) (EngineState.mk [(5, 260)] [] 0)
      (EngineState.mk [(5, 260)] [] 0) 260 (by decide)⟩

end LibmdbxRs
